import Mathlib

/-!
Verification of the PAX BLE fan driver (custom_components/pax_ble/ble_fan.py).

The driver is a facade over BLE GATT characteristic reads and writes.  We embed
the pure content of each operation: the binary codec (struct.pack / struct.unpack
with little-endian fixed-width fields), the input validation that precedes every
write, and the connection lifecycle as an explicit state machine.  Byte strings
are modelled as lists of naturals below 256; Python floats are modelled as exact
real numbers; Python exceptions are modelled with Except, where an error result
means the operation raised before (or instead of) performing its GATT write.
-/

namespace PaxBle

/-- Result of struct.pack with format <H (one little-endian uint16): two bytes,
low byte first.  struct.pack raises struct.error when the value is out of range,
hence the Option. -/
def pack16 (n : Nat) : Option (List Nat) :=
  if n < 65536 then some [n % 256, n / 256] else none

/-- Result of struct.pack with format <H applied to a Python int (which may be
negative): raises (none) unless 0 <= v < 65536. -/
def pack16I (v : Int) : Option (List Nat) :=
  if 0 ≤ v ∧ v < 65536 then pack16 v.toNat else none

/-- Result of struct.pack with format <I (one little-endian uint32): four bytes,
low byte first. -/
def pack32 (n : Nat) : Option (List Nat) :=
  if n < 4294967296 then
    some [n % 256, n / 256 % 256, n / 65536 % 256, n / 16777216 % 256]
  else none

/-- struct.unpack with format <HHH: exactly six bytes decode to three
little-endian uint16 values; any other length raises (none). -/
def unpackHHH (bs : List Nat) : Option (Nat × Nat × Nat) :=
  match bs with
  | [a0, a1, b0, b1, c0, c1] =>
      some (a0 + 256 * a1, b0 + 256 * b1, c0 + 256 * c1)
  | _ => none

/-- struct.unpack with format <b on a single byte: reinterpret as a signed
8-bit integer. -/
def unpackSigned8 (b : Nat) : Int :=
  if b < 128 then (b : Int) else (b : Int) - 256

/-- Truthiness of a Python int, as used by bool(...) and by the conditions of
the and operator. -/
def pyTruthy (n : Nat) : Bool := n != 0

/-- Python expression a and b on ints: returns a when a is falsy, else b. -/
def pyAnd (a b : Nat) : Nat := if pyTruthy a then b else a

/-- Trigger decoding from the mode byte, transcribed from the if/elif chain in
BleFan.getState (ble_fan.py lines 184-196). -/
def decodeTrigger (m : Nat) : String :=
  if (m >>> 4) &&& 1 == 1 then "Boost"
  else if (m >>> 6) &&& 3 == 3 then "Switch"
  else if m &&& 3 == 1 then "Trickle ventilation"
  else if m &&& 3 == 2 then "Light ventilation"
  else if m &&& 3 == 3 then "Humidity ventilation"
  else "No trigger"

/-- Trigger decoding as the specification words it: bit 4 set wins, then bits
6 and 7 both set, then the value of the low two bits (1, 2, 3), else no
trigger.  Stated independently of the source so the two can be compared. -/
def specTrigger (m : Nat) : String :=
  if m.testBit 4 then "Boost"
  else if m.testBit 6 && m.testBit 7 then "Switch"
  else if m % 4 == 1 then "Trickle ventilation"
  else if m % 4 == 2 then "Light ventilation"
  else if m % 4 == 3 then "Humidity ventilation"
  else "No trigger"

/-- Decoded sensitivity record (namedtuple Sensitivity in ble_fan.py). -/
structure Sensitivity where
  HumidityOn : Nat
  Humidity : Nat
  LightOn : Nat
  Light : Nat
  deriving DecidableEq, Repr

/-- BleFan.getSensorsSensitivity (ble_fan.py lines 250-269): unpack the four
raw bytes, then rebuild the record as
[HumidityOn, HumidityOn and Humidity, LightOn, LightOn and Light]. -/
def getSensorsSensitivity (humOn hum lightOn light : Nat) : Sensitivity :=
  { HumidityOn := humOn
    Humidity := pyAnd humOn hum
    LightOn := lightOn
    Light := pyAnd lightOn light }

/-- The per-value validation loop of BleFan.setFanSpeedSettings: first the
multiple-of-25 check, then the range check, in source order. -/
def checkSpeed (v : Int) : Except String Unit :=
  if v % 25 != 0 then .error "Speeds should be multiples of 25"
  else if v > 2500 || v < 0 then .error "Speeds must be between 0 and 2500 rpm"
  else .ok ()

/-- BleFan.setFanSpeedSettings (ble_fan.py lines 223-234): validate humidity,
light and trickle in that order, then write pack("<HHH", humidity, light,
trickle).  The returned bytes are the payload handed to the GATT write; an
error means the method raised and no write happened. -/
def setFanSpeedSettings (humidity light trickle : Int) : Except String (List Nat) :=
  match checkSpeed humidity with
  | .error m => .error m
  | .ok _ =>
    match checkSpeed light with
    | .error m => .error m
    | .ok _ =>
      match checkSpeed trickle with
      | .error m => .error m
      | .ok _ =>
        match pack16I humidity, pack16I light, pack16I trickle with
        | some a, some b, some c => .ok (a ++ b ++ c)
        | _, _, _ => .error "struct.error"

/-- BleFan.getFanSpeedSettings (ble_fan.py lines 236-239): unpack("<HHH", ...)
on the bytes read from the fan-speed characteristic. -/
def getFanSpeedSettings (bs : List Nat) : Option (Nat × Nat × Nat) :=
  unpackHHH bs

/-- BleFan.setBoostMode (ble_fan.py lines 291-298): reject a speed that is not
a multiple of 25; when the on flag is false force speed and seconds to zero;
then write pack("<BHH", on, speed, seconds). -/
def setBoostMode (onFlag : Bool) (speed seconds : Int) : Except String (List Nat) :=
  if speed % 25 != 0 then .error "Speed must be a multiple of 25"
  else
    let speed2 := if onFlag then speed else 0
    let seconds2 := if onFlag then seconds else 0
    match pack16I speed2, pack16I seconds2 with
    | some s, some c => .ok ((if onFlag then 1 else 0) :: (s ++ c))
    | _, _ => .error "struct.error"

/-- Connection-manager state: the _dev slot of BleFan.  none models
self._dev is None; some live models a BleakClient whose is_connected property
currently reports live. -/
structure ConnState where
  dev : Option Bool
  deriving DecidableEq, Repr

/-- BleFan.isConnected (ble_fan.py lines 114-118): true iff a handle exists and
its transport reports it connected. -/
def isConnected (s : ConnState) : Bool :=
  match s.dev with
  | some live => live
  | none => false

/-- BleFan.disconnect (ble_fan.py lines 106-112): when a handle exists, request
the transport disconnect (any exception it raises is caught and logged) and
clear the handle; when no handle exists, do nothing.  The transportRaises
argument models whether the underlying disconnect call errors; the Bool in the
result records whether a transport disconnect was requested.  The result type
carries no error case because the method never propagates one. -/
def disconnect (s : ConnState) (transportRaises : Bool) : ConnState × Bool :=
  match s.dev with
  | some _ =>
      let _ := transportRaises
      ({ dev := none }, true)
  | none => (s, false)

/-- The retry loop of BleFan.connect (ble_fan.py lines 79-103).  attempt n
gives the outcome of the n-th connection attempt (counting from 0): false
covers an unresolvable address, an exception from the transport connect, and a
falsy return from it — all of which leave the loop running — and true a
successful connect, which breaks out.  remaining is retries minus the attempts
already made and tries the count of attempts made so far, as in the source.
The result pairs the value of isConnected at return with the final attempt
count. -/
def connectLoop (attempt : Nat → Bool) : Nat → Nat → Bool × Nat
  | 0, tries => (false, tries)
  | remaining + 1, tries =>
      if attempt tries then (true, tries + 1)
      else connectLoop attempt remaining (tries + 1)

/-- BleFan.connect (ble_fan.py lines 75-104): an already connected client
returns True at once, before the loop, so with zero attempts; otherwise run the
retry loop for at most retries attempts. -/
def connect (alreadyConnected : Bool) (attempt : Nat → Bool) (retries : Nat) :
    Bool × Nat :=
  if alreadyConnected then (true, 0) else connectLoop attempt retries 0

/-- The attribute names available on a BleFan instance: the class attribute
device plus everything assigned in BleFan.init (ble_fan.py lines 53-70). -/
def bleFanAttrs : List String :=
  ["device", "_hass", "_dev", "_model", "_mac", "_pin"]

/-- Python attribute lookup on a BleFan instance: raises AttributeError when
the name is not among the attributes the class ever defines. -/
def bleFanGetAttr (name : String) : Except String Unit :=
  if name ∈ bleFanAttrs then .ok ()
  else .error "AttributeError: BleFan object has no attribute chars"

/-- BleFan.setAuth (ble_fan.py lines 160-161), reached through
BleFan.authorize: evaluate self.chars.CHARACTERISTIC_PIN_CODE — an attribute
lookup of chars on the BleFan instance — and only then pack("<I", int(pin))
and write it.  The chars lookup is evaluated first, so its failure prevents
the write. -/
def setAuth (pin : Nat) : Except String (List Nat) :=
  match bleFanGetAttr "chars" with
  | .error m => .error m
  | .ok _ =>
    match pack32 pin with
    | some bs => .ok bs
    | none => .error "struct.error"

/-- BleFan.checkAuth (ble_fan.py lines 163-165): unpack("<b", byte) then
bool(...) of the resulting signed value. -/
def checkAuth (b : Nat) : Bool :=
  unpackSigned8 b != 0

/-- struct.pack with format 20s: truncate the byte string to 20 bytes or pad
it with zero bytes up to 20. -/
def pack20s (bs : List Nat) : List Nat :=
  bs.take 20 ++ List.replicate (20 - bs.length) 0

/-- BleFan.setAlias (ble_fan.py lines 167-170): the payload written to the
fan-description characteristic is pack("20s", bytearray(name, "utf-8")), where
nameBytes stands for the UTF-8 encoding of the name. -/
def setAlias (nameBytes : List Nat) : List Nat :=
  pack20s nameBytes

/-- The attribute names available on a Python coroutine object (no decode
among them). -/
def coroutineAttrs : List String :=
  ["send", "throw", "close", "cr_await", "cr_code", "cr_frame", "cr_origin", "cr_running"]

/-- BleFan.getAlias (ble_fan.py lines 172-173): the body is
await self._readUUID(...).decode("utf-8").  Attribute access binds tighter
than await, so decode is looked up on the coroutine object returned by the
call to _readUUID, before any await; readBytes is the value the characteristic
read would produce. -/
def getAlias (readBytes : List Nat) : Except String (List Nat) :=
  if "decode" ∈ coroutineAttrs then .ok readBytes
  else .error "AttributeError: coroutine object has no attribute decode"

/-- Result of math.log2 on a real argument: math domain error on a
non-positive input, otherwise the base-2 logarithm. -/
noncomputable def pyLog2 (x : ℝ) : Except String ℝ :=
  if x ≤ 0 then .error "math domain error" else .ok (Real.logb 2 x)

/-- Python round(x, 2): round to the nearest hundredth (ties are immaterial to
every use below). -/
noncomputable def round2 (x : ℝ) : ℝ :=
  (round (x * 100) : ℤ) / 100

/-- Decoded fan state (namedtuple FanState in ble_fan.py); the two float
fields are modelled as exact reals. -/
structure FanState where
  Humidity : ℝ
  Temp : ℝ
  Light : Nat
  RPM : Nat
  Mode : String

/-- BleFan.getState (ble_fan.py lines 178-204) on the already unpacked payload
(v0..v3 are the four little-endian uint16 fields, mode the following byte):
humidity is round(math.log2(v0 - 30) * 10, 2) when v0 > 30 and the int 0
otherwise, temperature is v1 / 4 - 2.6, light and fan speed pass through, and
the trigger comes from the mode byte.  An error would mean math.log2 raised. -/
noncomputable def getState (v0 v1 v2 v3 mode : Nat) : Except String FanState :=
  match (if v0 > 30 then
           Except.map (fun l => round2 (l * 10)) (pyLog2 ((v0 : ℝ) - 30))
         else .ok 0) with
  | .error m => .error m
  | .ok hum =>
      .ok { Humidity := hum
            Temp := (v1 : ℝ) / 4 - 26 / 10
            Light := v2
            RPM := v3
            Mode := decodeTrigger mode }

/-- The legal domain of one fan-speed value per the validation in
BleFan.setFanSpeedSettings: a multiple of 25 lying in [0, 2500]. -/
def speedOk (v : Int) : Prop := v % 25 = 0 ∧ 0 ≤ v ∧ v ≤ 2500

instance (v : Int) : Decidable (speedOk v) := by
  unfold speedOk
  infer_instance

/-- Whether a modelled operation ended in a raised exception. -/
def raised (e : Except String (List Nat)) : Bool :=
  match e with
  | .error _ => true
  | .ok _ => false

/-- The bytes an operation actually wrote: none when it raised instead. -/
def writtenBytes (e : Except String (List Nat)) : Option (List Nat) :=
  match e with
  | .error _ => none
  | .ok bs => some bs

set_option maxRecDepth 8000

lemma checkSpeed_ok {v : Int} (h : speedOk v) : checkSpeed v = .ok () := by
  obtain ⟨h1, h2, h3⟩ := h
  unfold checkSpeed
  rw [if_neg, if_neg]
  · simp only [Bool.or_eq_true, decide_eq_true_eq, not_or, not_lt]
    omega
  · simp only [bne_iff_ne, ne_eq, not_not]
    exact h1

lemma checkSpeed_err {v : Int} (h : ¬ speedOk v) : ∃ m, checkSpeed v = .error m := by
  unfold checkSpeed
  unfold speedOk at h
  split
  · exact ⟨_, rfl⟩
  · split
    · exact ⟨_, rfl⟩
    · exfalso
      rename_i h1 h2
      simp only [bne_iff_ne, ne_eq, not_not] at h1
      simp only [Bool.or_eq_true, decide_eq_true_eq, not_or, not_lt] at h2
      exact h ⟨h1, h2.2, h2.1⟩

lemma pack16I_eq {v : Int} (h0 : 0 ≤ v) (h1 : v < 65536) :
    pack16I v = some [v.toNat % 256, v.toNat / 256] := by
  unfold pack16I pack16
  rw [if_pos ⟨h0, h1⟩, if_pos (by omega)]

lemma setFanSpeedSettings_ok {a b c : Int}
    (ha : speedOk a) (hb : speedOk b) (hc : speedOk c) :
    setFanSpeedSettings a b c =
      .ok [a.toNat % 256, a.toNat / 256, b.toNat % 256, b.toNat / 256,
           c.toNat % 256, c.toNat / 256] := by
  unfold setFanSpeedSettings
  rw [checkSpeed_ok ha, checkSpeed_ok hb, checkSpeed_ok hc,
      pack16I_eq ha.2.1 (by have := ha.2.2; omega),
      pack16I_eq hb.2.1 (by have := hb.2.2; omega),
      pack16I_eq hc.2.1 (by have := hc.2.2; omega)]
  rfl




/-- C2: for every mode byte, the trigger decoded by getState equals the
trigger described by the specification: bit 4 gives Boost, else bits 6 and 7
both set give Switch, else low two bits equal to 1, 2, 3 give Trickle, Light
and Humidity ventilation, else no trigger — checks applied in that order with
the first match winning. -/
theorem decodeTrigger_matches_spec :
    ∀ m : Fin 256, decodeTrigger m.val = specTrigger m.val := by
  decide

/-- C4: getSensorsSensitivity forces each sensitivity level to 0 whenever the
corresponding on flag byte is falsy and passes the raw level through
otherwise; in particular raw bytes (0, 3, 1, 2) decode to (0, 0, 1, 2). -/
theorem getSensorsSensitivity_spec :
    (∀ humOn hum lightOn light : Nat,
       getSensorsSensitivity humOn hum lightOn light =
         { HumidityOn := humOn
           Humidity := if humOn = 0 then 0 else hum
           LightOn := lightOn
           Light := if lightOn = 0 then 0 else light }) ∧
    getSensorsSensitivity 0 3 1 2 = ⟨0, 0, 1, 2⟩ := by
  constructor
  · intro humOn hum lightOn light
    unfold getSensorsSensitivity pyAnd pyTruthy
    congr 1 <;> split <;> simp_all
  · decide

/-- C3: setFanSpeedSettings writes the packed little-endian uint16 triple when
all three values are multiples of 25 inside [0, 2500], and raises before any
write when any of the three values is illegal. -/
theorem setFanSpeedSettings_spec (humidity light trickle : Int) :
    (speedOk humidity ∧ speedOk light ∧ speedOk trickle →
       setFanSpeedSettings humidity light trickle =
         .ok [humidity.toNat % 256, humidity.toNat / 256,
              light.toNat % 256, light.toNat / 256,
              trickle.toNat % 256, trickle.toNat / 256]) ∧
    (¬ (speedOk humidity ∧ speedOk light ∧ speedOk trickle) →
       raised (setFanSpeedSettings humidity light trickle) = true) := by
  constructor
  · rintro ⟨h1, h2, h3⟩
    exact setFanSpeedSettings_ok h1 h2 h3
  · intro h
    unfold setFanSpeedSettings
    by_cases hA : speedOk humidity
    · rw [checkSpeed_ok hA]
      by_cases hB : speedOk light
      · rw [checkSpeed_ok hB]
        have hC : ¬ speedOk trickle := fun hc => h ⟨hA, hB, hc⟩
        obtain ⟨m, hm⟩ := checkSpeed_err hC
        rw [hm]
        rfl
      · obtain ⟨m, hm⟩ := checkSpeed_err hB
        rw [hm]
        rfl
    · obtain ⟨m, hm⟩ := checkSpeed_err hA
      rw [hm]
      rfl

/-- C3 witness: the default triple (2250, 1625, 1000) is accepted and packed,
while (10, 1625, 1000) is rejected with no write. -/
theorem setFanSpeedSettings_spec_witness :
    setFanSpeedSettings 2250 1625 1000 = .ok [202, 8, 89, 6, 232, 3] ∧
    raised (setFanSpeedSettings 10 1625 1000) = true := by
  constructor
  · exact (setFanSpeedSettings_spec 2250 1625 1000).1 ⟨by decide, by decide, by decide⟩
  · exact (setFanSpeedSettings_spec 10 1625 1000).2 (by decide)

/-- C5: on the legal domain — each component a multiple of 25 in [0, 2500] —
decoding with getFanSpeedSettings the bytes setFanSpeedSettings writes gives
the original triple back. -/
theorem fanSpeed_roundtrip (h l t : Nat)
    (hh : h % 25 = 0) (hh2 : h ≤ 2500) (hl : l % 25 = 0) (hl2 : l ≤ 2500)
    (ht : t % 25 = 0) (ht2 : t ≤ 2500) :
    (writtenBytes (setFanSpeedSettings (h : Int) (l : Int) (t : Int))).bind
        getFanSpeedSettings = some (h, l, t) := by
  rw [setFanSpeedSettings_ok ⟨by omega, by omega, by omega⟩
      ⟨by omega, by omega, by omega⟩ ⟨by omega, by omega, by omega⟩]
  simp only [writtenBytes, Option.some_bind, Int.toNat_natCast]
  unfold getFanSpeedSettings unpackHHH
  simp only [Option.some.injEq, Prod.mk.injEq]
  refine ⟨?_, ?_, ?_⟩ <;> omega

/-- C5 witness: the concrete triple (2250, 1625, 1000) round-trips. -/
theorem fanSpeed_roundtrip_witness :
    (writtenBytes (setFanSpeedSettings 2250 1625 1000)).bind getFanSpeedSettings =
      some (2250, 1625, 1000) := by
  exact fanSpeed_roundtrip 2250 1625 1000 (by decide) (by decide) (by decide)
    (by decide) (by decide) (by decide)

/-- C6: setBoostMode rejects a speed that is not a multiple of 25;
with a legal speed and the on flag false it writes the payload (0, 0, 0),
discarding the supplied speed and seconds — in particular
setBoostMode false 500 30 writes (0, 0, 0) — and with the on flag true it
writes the supplied speed and seconds. -/
theorem setBoostMode_spec (onFlag : Bool) (speed seconds : Int) :
    (speed % 25 = 0 → setBoostMode false speed seconds = .ok [0, 0, 0, 0, 0]) ∧
    (speed % 25 = 0 → 0 ≤ speed → speed < 65536 → 0 ≤ seconds → seconds < 65536 →
       setBoostMode true speed seconds =
         .ok [1, speed.toNat % 256, speed.toNat / 256,
              seconds.toNat % 256, seconds.toNat / 256]) ∧
    (speed % 25 ≠ 0 → raised (setBoostMode onFlag speed seconds) = true) ∧
    setBoostMode false 500 30 = .ok [0, 0, 0, 0, 0] := by
  refine ⟨?_, ?_, ?_, by rfl⟩
  · intro h25
    unfold setBoostMode
    rw [if_neg (by simpa using h25)]
    norm_num [pack16I, pack16]
  · intro h25 hs0 hs1 hc0 hc1
    unfold setBoostMode
    rw [if_neg (by simpa using h25)]
    norm_num
    rw [pack16I_eq hs0 hs1, pack16I_eq hc0 hc1]
    rfl
  · intro h25
    unfold setBoostMode
    rw [if_pos (by simpa using h25)]
    rfl

/-- C6 witness: the concrete calls from the specification. -/
theorem setBoostMode_spec_witness :
    setBoostMode false 500 30 = .ok [0, 0, 0, 0, 0] ∧
    setBoostMode true 500 30 = .ok [1, 244, 1, 30, 0] ∧
    raised (setBoostMode true 510 30) = true := by
  refine ⟨?_, ?_, ?_⟩
  · exact (setBoostMode_spec false 500 30).1 (by decide)
  · exact (setBoostMode_spec true 500 30).2.1 (by decide) (by decide) (by decide)
      (by decide) (by decide)
  · exact (setBoostMode_spec true 510 30).2.2.1 (by decide)

lemma connectLoop_le (attempt : Nat → Bool) :
    ∀ remaining tries, (connectLoop attempt remaining tries).2 ≤ tries + remaining := by
  intro remaining
  induction remaining with
  | zero => intro tries; simp [connectLoop]
  | succ n ih =>
      intro tries
      unfold connectLoop
      split
      · simp
      · have := ih (tries + 1)
        omega

lemma connectLoop_first_success (attempt : Nat → Bool) :
    ∀ i remaining tries, i < remaining →
      (∀ j, j < i → attempt (tries + j) = false) → attempt (tries + i) = true →
      connectLoop attempt remaining tries = (true, tries + i + 1) := by
  intro i
  induction i with
  | zero =>
      intro remaining tries hlt _ hs
      cases remaining with
      | zero => omega
      | succ n =>
          unfold connectLoop
          rw [if_pos (by simpa using hs)]
  | succ k ih =>
      intro remaining tries hlt hfail hs
      cases remaining with
      | zero => omega
      | succ n =>
          unfold connectLoop
          rw [if_neg (by simpa using hfail 0 (Nat.succ_pos k))]
          have h2 : ∀ j, j < k → attempt (tries + 1 + j) = false := by
            intro j hj
            have := hfail (j + 1) (by omega)
            simpa [Nat.add_assoc, Nat.add_comm 1 j] using this
          have h3 : attempt (tries + 1 + k) = true := by
            have := hs
            simpa [Nat.add_assoc, Nat.add_comm 1 k] using this
          have := ih n (tries + 1) (by omega) h2 h3
          rw [this]
          congr 1
          omega

lemma connectLoop_all_fail (attempt : Nat → Bool) :
    ∀ remaining tries, (∀ j, j < remaining → attempt (tries + j) = false) →
      connectLoop attempt remaining tries = (false, tries + remaining) := by
  intro remaining
  induction remaining with
  | zero => intro tries _; simp [connectLoop]
  | succ n ih =>
      intro tries hfail
      unfold connectLoop
      rw [if_neg (by simpa using hfail 0 (Nat.succ_pos n))]
      have h2 : ∀ j, j < n → attempt (tries + 1 + j) = false := by
        intro j hj
        have := hfail (j + 1) (by omega)
        simpa [Nat.add_assoc, Nat.add_comm 1 j] using this
      rw [ih (tries + 1) h2]
      congr 1
      omega

/-- C7: connect returns success with zero attempts when already connected;
otherwise it makes at most retries attempts, returns success right after the
first successful attempt — in particular two failures followed by a success
with retries 3 gives success after exactly 3 attempts — and when every attempt
fails it returns failure (a boolean result, not an exception) after exactly
retries attempts. -/
theorem connect_spec :
    (∀ attempt retries, connect true attempt retries = (true, 0)) ∧
    (∀ attempt retries, (connect false attempt retries).2 ≤ retries) ∧
    (∀ attempt retries i, i < retries → (∀ j, j < i → attempt j = false) →
       attempt i = true → connect false attempt retries = (true, i + 1)) ∧
    connect false (fun n => n == 2) 3 = (true, 3) ∧
    (∀ attempt retries, (∀ j, j < retries → attempt j = false) →
       connect false attempt retries = (false, retries)) := by
  refine ⟨fun _ _ => rfl, ?_, ?_, by decide, ?_⟩
  · intro attempt retries
    have := connectLoop_le attempt retries 0
    simpa [connect] using this
  · intro attempt retries i hlt hfail hs
    have := connectLoop_first_success attempt i retries 0 hlt
      (by simpa using hfail) (by simpa using hs)
    simpa [connect] using this
  · intro attempt retries hfail
    have := connectLoop_all_fail attempt retries 0 (by simpa using hfail)
    simpa [connect] using this

/-- C7 witness: failing twice then succeeding with retries 3 gives success in
exactly 3 attempts; failing three times gives failure in 3 attempts. -/
theorem connect_spec_witness :
    connect false (fun n => n == 2) 3 = (true, 3) ∧
    connect false (fun _ => false) 3 = (false, 3) := by
  constructor
  · exact connect_spec.2.2.1 (fun n => n == 2) 3 2 (by decide)
      (by decide) (by decide)
  · exact connect_spec.2.2.2.2 (fun _ => false) 3 (fun _ _ => rfl)

/-- C8: disconnect never propagates an error — its result does not even depend
on whether the transport disconnect raises — it requests a transport
disconnect exactly when a handle exists, and afterwards the handle is always
cleared, so isConnected reports false. -/
theorem disconnect_spec (s : ConnState) (transportRaises : Bool) :
    (disconnect s transportRaises).1.dev = none ∧
    isConnected (disconnect s transportRaises).1 = false ∧
    (disconnect s transportRaises).2 = s.dev.isSome ∧
    disconnect s transportRaises = disconnect s false := by
  obtain ⟨dev⟩ := s
  cases dev <;> simp [disconnect, isConnected]

/-- C9: the claim is what the author intended, but setAuth as written looks up
a chars attribute that no BleFan instance has, so every authorize call raises
AttributeError before the write; checkAuth itself does return true exactly for
a nonzero confirmation byte. -/
theorem setAuth_raises_attributeError :
    (∀ pin : Nat,
       setAuth pin = .error "AttributeError: BleFan object has no attribute chars") ∧
    (∀ b : Fin 256, (checkAuth b.val = true ↔ b.val ≠ 0)) := by
  constructor
  · intro pin
    rfl
  · decide

/-- C10: setAlias does pad or truncate the UTF-8 bytes of the name to exactly
20 bytes, but getAlias as written calls decode on the coroutine returned by
the read helper instead of on the awaited bytes, so every getAlias call raises
AttributeError instead of returning decoded text. -/
theorem alias_pads_but_getAlias_raises :
    (∀ nameBytes : List Nat,
       setAlias nameBytes = nameBytes.take 20 ++ List.replicate (20 - nameBytes.length) 0 ∧
       (setAlias nameBytes).length = 20) ∧
    (∀ readBytes : List Nat,
       getAlias readBytes =
         .error "AttributeError: coroutine object has no attribute decode") := by
  constructor
  · intro nameBytes
    refine ⟨rfl, ?_⟩
    unfold setAlias pack20s
    simp [List.length_take, List.length_replicate]
    omega
  · intro readBytes
    rfl

lemma logb_two_64 : Real.logb 2 64 = 6 := by
  have h : (64 : ℝ) = 2 ^ (6 : ℕ) := by norm_num
  rw [h, Real.logb_pow, Real.logb_self_eq_one (by norm_num)]
  norm_num

lemma round2_sixty : round2 60 = 60 := by
  unfold round2
  have h : (60 : ℝ) * 100 = ((6000 : ℤ) : ℝ) := by norm_num
  rw [h, round_intCast]
  norm_num

lemma getState_pos {v0 v1 v2 v3 mode : Nat} (h : 30 < v0) :
    getState v0 v1 v2 v3 mode =
      .ok { Humidity := round2 (Real.logb 2 ((v0 : ℝ) - 30) * 10)
            Temp := (v1 : ℝ) / 4 - 26 / 10
            Light := v2
            RPM := v3
            Mode := decodeTrigger mode } := by
  have hr : ¬ ((v0 : ℝ) - 30 ≤ 0) := by
    have : (30 : ℝ) < (v0 : ℝ) := by exact_mod_cast h
    linarith
  unfold getState pyLog2
  rw [if_pos h, if_neg hr]
  rfl

lemma getState_concrete :
    getState 94 50 10 1800 0x10 =
      .ok { Humidity := 60, Temp := 99 / 10, Light := 10, RPM := 1800,
            Mode := "Boost" } := by
  rw [getState_pos (by norm_num)]
  have h64 : ((94 : Nat) : ℝ) - 30 = 64 := by norm_num
  rw [h64, logb_two_64]
  norm_num [round2_sixty]
  rfl

/-- C1 counterexample: the specification asserts the concrete payload
(94, 50, 10, 1800, 0x10) decodes with temperature 10.0, but the code computes
50 / 4 - 2.6 = 9.9. -/
theorem getState_concrete_temp_not_ten :
    Except.map FanState.Temp (getState 94 50 10 1800 0x10) ≠ .ok (10 : ℝ) := by
  rw [getState_concrete]
  intro h
  simp only [Except.map, Except.ok.injEq] at h
  norm_num at h

/-- C1 amended: getState decodes humidity as round(log2(v0 - 30) * 10, 2) when
v0 > 30 and as exactly 0 otherwise (no logarithm of a non-positive value is
attempted, so the decode never raises), temperature as v1 / 4 - 2.6, light and
speed unchanged; the concrete payload (94, 50, 10, 1800, 0x10) decodes to
humidity 60.0, temperature 9.9, light 10, speed 1800, trigger Boost. -/
theorem getState_spec :
    (∀ v0 v1 v2 v3 mode : Nat, v0 ≤ 30 →
       getState v0 v1 v2 v3 mode =
         .ok { Humidity := 0, Temp := (v1 : ℝ) / 4 - 26 / 10, Light := v2,
               RPM := v3, Mode := decodeTrigger mode }) ∧
    (∀ v0 v1 v2 v3 mode : Nat, 30 < v0 →
       getState v0 v1 v2 v3 mode =
         .ok { Humidity := round2 (Real.logb 2 ((v0 : ℝ) - 30) * 10)
               Temp := (v1 : ℝ) / 4 - 26 / 10, Light := v2, RPM := v3,
               Mode := decodeTrigger mode }) ∧
    getState 94 50 10 1800 0x10 =
      .ok { Humidity := 60, Temp := 99 / 10, Light := 10, RPM := 1800,
            Mode := "Boost" } := by
  refine ⟨?_, fun v0 v1 v2 v3 mode h => getState_pos h, getState_concrete⟩
  intro v0 v1 v2 v3 mode h
  unfold getState
  rw [if_neg (by omega)]

/-- C1 witness: the amended decode evaluated on a payload with v0 at the
boundary and on one above it. -/
theorem getState_spec_witness :
    getState 30 50 10 1800 0 =
      .ok { Humidity := 0, Temp := (50 : ℝ) / 4 - 26 / 10, Light := 10,
            RPM := 1800, Mode := "No trigger" } ∧
    getState 94 50 10 1800 0x10 =
      .ok { Humidity := 60, Temp := 99 / 10, Light := 10, RPM := 1800,
            Mode := "Boost" } := by
  constructor
  · have h := getState_spec.1 30 50 10 1800 0 (by norm_num)
    simpa using h
  · exact getState_spec.2.2

end PaxBle
